import Mathlib

/-!
Shallow embedding of the minigui repository (an LVGL-based touchscreen UI
shell) and proofs about its provider-bridge layer, screen switching, log
table refresh and navigation drawer.

Sources embedded:
- src/src/minigui.c          (callback registry, bridges, screen switching)
- src/src/minigui_menu.c     (navigation drawer, toggle, nav buttons)
- src/src/screens/screen_logs.c     (log table refresh, internal mock)
- src/src/screens/screen_settings.c (monitor timer percentages)
- src/include/minigui.h      (types and constants)

Modelling conventions:
- C global function-pointer slots become `Option`-typed fields of a
  `MiniguiCallbacks` record; registration functions update the record.
- `void`-returning callbacks (brightness, wifi save) are modelled as
  functions into an arbitrary effect type `A`; a bridge invocation returns
  the list of callback effects it performed (empty list = no call made).
- Out-parameter fill callbacks (stats, network status, time) are modelled
  as functions returning the filled value.
- Machine strings copied with `strncpy(dst, src, n - 1)` are modelled with
  `strncpyTrunc (n - 1)`, truncation to the first `n - 1` characters.
- External environment inputs (C library time, `lv_tick_get()`) are passed
  as explicit parameters (`sysTime`, `tick`).
-/

/-- `strncpy(dst, src, n)` for a source string that is treated as a string:
the destination receives at most the first `n` characters of `src`
(all mock strings in the source are shorter than their buffers, so the
copy is value-preserving there). -/
def strncpyTrunc (n : Nat) (s : String) : String := ⟨s.data.take n⟩

/-- MINIGUI_SCREEN_COUNT from minigui.h: the enum has HOME, LOGS, SETTINGS. -/
def MINIGUI_SCREEN_COUNT : Nat := 3

/-- MINIGUI_MAX_LOGS from minigui.h. -/
def MINIGUI_MAX_LOGS : Nat := 50

/-- minigui_wifi_credentials_t from minigui.h. -/
structure WifiCredentials where
  ssid : String
  password : String
deriving DecidableEq, Repr

/-- minigui_wifi_network_t from minigui.h (ssid[64], int8_t rssi; the mock
rssi values -50..-90 are all representable, so rssi is carried as `Int`). -/
structure WifiNetwork where
  ssid : String
  rssi : Int
deriving DecidableEq, Repr

/-- The caller-owned scan output buffer `minigui_wifi_network_t *networks`,
indexed by entry. -/
abbrev WifiBuf := Nat → WifiNetwork

/-- minigui_wifi_scan_provider_t: receives the buffer and its capacity,
returns the written buffer and the entry count. -/
abbrev WifiScanProvider := WifiBuf → Nat → WifiBuf × Nat

/-- minigui_system_stats_t from minigui.h. The C `float voltage` is carried
in hundredths of a volt (the mock value 5.0 + (tick % 100)/100 V becomes
500 + tick % 100 centivolts). -/
structure SystemStats where
  voltageCenti : Nat
  cpu_usage : Nat
  flash_used_kb : Nat
  flash_total_kb : Nat
  ram_used_kb : Nat
  ram_total_kb : Nat
deriving DecidableEq, Repr

/-- minigui_network_status_t from minigui.h. -/
structure NetworkStatus where
  connected : Bool
  ssid : String
  ip_address : String
  mac_address : String
deriving DecidableEq, Repr

/-- minigui_log_entry_t from minigui.h
(timestamp[16], source[16], level[10], message[256]). -/
structure LogEntry where
  timestamp : String
  source : String
  level : String
  message : String
deriving DecidableEq, Repr

instance : Inhabited LogEntry := ⟨⟨"", "", "", ""⟩⟩

/-- minigui_log_provider_t: gets the buffer capacity and the (possibly NULL)
filter string, returns the entries it wrote. -/
abbrev LogProvider := Nat → Option String → List LogEntry

/-- The file-scope callback hook globals of minigui.c
(`brightness_cb`, `global_time_provider`, `wifi_save_cb`,
`wifi_scan_provider`, `system_stats_provider`, `network_status_provider`),
each `NULL` (= `none`) until registered. `A` is the effect type of the
void-returning brightness / wifi-save callbacks. -/
structure MiniguiCallbacks (A : Type) where
  brightness_cb : Option (Nat → A) := none
  global_time_provider : Option (Nat → String) := none
  wifi_save_cb : Option (WifiCredentials → A) := none
  wifi_scan_provider : Option WifiScanProvider := none
  system_stats_provider : Option (Unit → SystemStats) := none
  network_status_provider : Option (Unit → NetworkStatus) := none

/-- minigui.c: `void minigui_register_brightness_cb(cb) { brightness_cb = cb; }` -/
def minigui_register_brightness_cb {A} (s : MiniguiCallbacks A)
    (cb : Option (Nat → A)) : MiniguiCallbacks A :=
  { s with brightness_cb := cb }

/-- minigui.c: `minigui_register_wifi_save_cb`. -/
def minigui_register_wifi_save_cb {A} (s : MiniguiCallbacks A)
    (cb : Option (WifiCredentials → A)) : MiniguiCallbacks A :=
  { s with wifi_save_cb := cb }

/-- minigui.c: `minigui_register_wifi_scan_provider`. -/
def minigui_register_wifi_scan_provider {A} (s : MiniguiCallbacks A)
    (provider : Option WifiScanProvider) : MiniguiCallbacks A :=
  { s with wifi_scan_provider := provider }

/-- minigui.c: `minigui_register_system_stats_provider`. -/
def minigui_register_system_stats_provider {A} (s : MiniguiCallbacks A)
    (provider : Option (Unit → SystemStats)) : MiniguiCallbacks A :=
  { s with system_stats_provider := provider }

/-- minigui.c: `minigui_register_network_status_provider`. -/
def minigui_register_network_status_provider {A} (s : MiniguiCallbacks A)
    (provider : Option (Unit → NetworkStatus)) : MiniguiCallbacks A :=
  { s with network_status_provider := provider }

/-- minigui.c: `minigui_set_time_provider` stores the provider globally
(the immediate clock refresh it also performs is `update_clock_cb`,
modelled separately). -/
def minigui_set_time_provider {A} (s : MiniguiCallbacks A)
    (provider : Option (Nat → String)) : MiniguiCallbacks A :=
  { s with global_time_provider := provider }

/-- minigui.c `minigui_set_brightness`:
`if (brightness_cb) brightness_cb(brightness);`
The result is the list of callback invocations performed. -/
def minigui_set_brightness {A} (s : MiniguiCallbacks A) (brightness : Nat) :
    List A :=
  match s.brightness_cb with
  | some f => [f brightness]
  | none => []

/-- minigui.c `minigui_save_wifi_credentials`:
`if (wifi_save_cb) wifi_save_cb(creds);`
The credentials value is forwarded untouched to the callback when one is
registered; otherwise nothing happens. -/
def minigui_save_wifi_credentials {A} (s : MiniguiCallbacks A)
    (creds : WifiCredentials) : List A :=
  match s.wifi_save_cb with
  | some f => [f creds]
  | none => []

/-- minigui.c `update_clock_cb`: if the clock label does not exist, return;
with a registered provider, that provider formats the buffer (of size 32);
otherwise the C library time (strftime of localtime, an environment input
`sysTime`) is used. The result is the text assigned to the clock label. -/
def update_clock_cb {A} (s : MiniguiCallbacks A) (lblClockExists : Bool)
    (sysTime : String) : Option String :=
  if lblClockExists then
    some (match s.global_time_provider with
          | some p => p 32
          | none => sysTime)
  else
    none

/-- The `mock_ssids` array of minigui.c `minigui_scan_wifi`. -/
def mock_ssids : List String :=
  ["Home_WiFi_2.4G", "Office_Secure", "CoffeeShop_Free", "Starlink_99", "Guest_Lounge"]

/-- The default mock scan branch of minigui.c `minigui_scan_wifi`:
`count = (5 < max_count) ? 5 : max_count`, then entry i gets
`strncpy(ssid, mock_ssids[i], 63)` and `rssi = -50 - (i * 10)`. -/
def wifi_scan_mock (networks : WifiBuf) (max_count : Nat) : WifiBuf × Nat :=
  let count := if 5 < max_count then 5 else max_count
  (fun i =>
    if i < count then
      { ssid := strncpyTrunc 63 (mock_ssids.getD i ""), rssi := -50 - 10 * (i : Int) }
    else networks i,
   count)

/-- minigui.c `minigui_scan_wifi`: delegate to the registered provider, else
run the mock scan. -/
def minigui_scan_wifi {A} (s : MiniguiCallbacks A) (networks : WifiBuf)
    (max_count : Nat) : WifiBuf × Nat :=
  match s.wifi_scan_provider with
  | some p => p networks max_count
  | none => wifi_scan_mock networks max_count

/-- The default mock stats branch of minigui.c `minigui_get_system_stats`
(`tick` models `lv_tick_get()`). -/
def system_stats_mock (tick : Nat) : SystemStats :=
  { voltageCenti := 500 + tick % 100
    cpu_usage := 15 + tick % 40
    flash_used_kb := 512
    flash_total_kb := 4096
    ram_used_kb := 128
    ram_total_kb := 520 }

/-- minigui.c `minigui_get_system_stats`: delegate to the registered
provider, else fill with mock data fluctuating on the tick. -/
def minigui_get_system_stats {A} (s : MiniguiCallbacks A) (tick : Nat) :
    SystemStats :=
  match s.system_stats_provider with
  | some p => p ()
  | none => system_stats_mock tick

/-- The default mock branch of minigui.c `minigui_get_network_status`
(strncpy bounds are the field sizes minus one). -/
def network_status_mock : NetworkStatus :=
  { connected := true
    ssid := strncpyTrunc 63 "Home_WiFi_2.4G"
    ip_address := strncpyTrunc 15 "192.168.1.42"
    mac_address := strncpyTrunc 17 "AA:BB:CC:DD:EE:FF" }

/-- minigui.c `minigui_get_network_status`: delegate to the registered
provider, else the mock connected status. -/
def minigui_get_network_status {A} (s : MiniguiCallbacks A) : NetworkStatus :=
  match s.network_status_provider with
  | some p => p ()
  | none => network_status_mock

/-- A registry with no callbacks registered, at effect type `Nat`
(every slot is NULL). -/
def emptyCallbacks : MiniguiCallbacks Nat := {}

/-! ## Shell: screen switching (minigui.c) -/

/-- The `titles` array of minigui.c `minigui_switch_screen`. -/
def screen_titles : List String := ["Home", "System Logs", "Settings"]

/-- The shell UI state of minigui.c that `minigui_switch_screen` touches:
the content area (`none` before `minigui_init` creates it, otherwise its
list of children, of an abstract widget type `W`) and the title label
text. -/
structure ShellState (W : Type) where
  contentArea : Option (List W)
  titleText : String
deriving DecidableEq, Repr

/-- minigui.c `minigui_switch_screen`:
guard `screen_type >= MINIGUI_SCREEN_COUNT || !content_area`; then
`lv_obj_clean(content_area)` (all children removed), title set from the
`titles` array, and the creator from the `screen_creators` array invoked
on the cleaned content area. `creators i` is the child list the creator
for screen `i` builds (all three array slots are non-NULL in the source,
so the creator is modelled total). Returns the new state and the id of
the creator that was invoked, if any. -/
def minigui_switch_screen {W} (creators : Nat → List W) (s : ShellState W)
    (screen_type : Nat) : ShellState W × Option Nat :=
  if MINIGUI_SCREEN_COUNT ≤ screen_type then (s, none)
  else
    match s.contentArea with
    | none => (s, none)
    | some _children =>
        ({ contentArea := some ([] ++ creators screen_type)
           titleText := screen_titles.getD screen_type "" },
         some screen_type)

/-! ## Navigation menu (minigui_menu.c) -/

/-- The menu state of minigui_menu.c: whether `menu_drawer` / `menu_blocker`
were created (`minigui_menu_init` ran), the `LV_OBJ_FLAG_HIDDEN` flag of
the blocker, and the (from, to) x-values of the most recently started
drawer slide animation. -/
structure MenuState where
  menuExists : Bool
  blockerHidden : Bool
  lastAnim : Option (Int × Int)
deriving DecidableEq, Repr

/-- minigui_menu.c `minigui_menu_toggle`: no-op when the drawer or blocker
is missing; otherwise branch on the blocker hidden flag: opening removes
the hidden flag and animates x from -250 to 0, closing adds the flag and
animates x from 0 to -250. -/
def minigui_menu_toggle (m : MenuState) : MenuState :=
  if m.menuExists then
    if m.blockerHidden then
      { m with blockerHidden := false, lastAnim := some (-250, 0) }
    else
      { m with blockerHidden := true, lastAnim := some (0, -250) }
  else m

/-- A drawer navigation button: its label and the screen id stored as its
event user data. -/
structure NavButton where
  label : String
  userData : Nat
deriving DecidableEq, Repr

instance : Inhabited NavButton := ⟨⟨"", 0⟩⟩

/-- The `btn_texts` array of minigui_menu.c `minigui_menu_init`. -/
def btn_texts : List String := ["Home", "Logs", "Settings"]

/-- The `screen_ids` array of minigui_menu.c `minigui_menu_init`
(HOME = 0, LOGS = 1, SETTINGS = 2 per the minigui.h enum). -/
def screen_ids : List Nat := [0, 1, 2]

/-- The three navigation buttons built by the `for (i = 0; i < 3; i++)`
loop of minigui_menu.c `minigui_menu_init`: button i carries
`btn_texts[i]` and user data `screen_ids[i]`. Nothing in the source
mutates a button or its user data after this loop. -/
def minigui_menu_init_buttons : List NavButton :=
  (List.range 3).map (fun i => ⟨btn_texts.getD i "", screen_ids.getD i 0⟩)

/-- minigui_menu.c `nav_btn_cb`: read the target screen id from the event
user data, call `minigui_switch_screen(target)`, then
`minigui_menu_toggle()`. -/
def nav_btn_cb {W} (creators : Nat → List W) (shell : ShellState W)
    (menu : MenuState) (userData : Nat) :
    (ShellState W × Option Nat) × MenuState :=
  (minigui_switch_screen creators shell userData, minigui_menu_toggle menu)

/-! ## Logs screen (screen_logs.c) -/

/-- One row of the four-column LVGL log table (Time, Source, Level,
Message). -/
structure Row where
  c0 : String
  c1 : String
  c2 : String
  c3 : String
deriving DecidableEq, Repr

/-- An all-empty row, the content of freshly added table cells. -/
def Row.empty : Row := ⟨"", "", "", ""⟩

instance : Inhabited Row := ⟨Row.empty⟩

/-- Write one column of a row (`lv_table_set_cell_value` at that column). -/
def Row.setCol (r : Row) (c : Nat) (v : String) : Row :=
  match c with
  | 0 => { r with c0 := v }
  | 1 => { r with c1 := v }
  | 2 => { r with c2 := v }
  | 3 => { r with c3 := v }
  | _ => r

/-- The `data_table` widget: its rows (the row count is the list length;
the column count is fixed at 4). -/
structure Table where
  rows : List Row
deriving DecidableEq, Repr

/-- `lv_table_set_row_cnt`: rows beyond the new count are dropped, new rows
come up empty. -/
def Table.setRowCnt (t : Table) (n : Nat) : Table :=
  ⟨t.rows.take n ++ List.replicate (n - t.rows.length) Row.empty⟩

/-- `lv_table_set_cell_value`: writing a cell grows the row count to reach
the row if needed, then updates the addressed column of that row. -/
def Table.setCell (t : Table) (r c : Nat) (v : String) : Table :=
  let tg := if r < t.rows.length then t else t.setRowCnt (r + 1)
  ⟨tg.rows.set r ((tg.rows.getD r Row.empty).setCol c v)⟩

/-- screen_logs.c `clear_table_cells`: for every existing row, set columns
0-3 to the empty string. -/
def clear_table_cells (t : Table) : Table :=
  ⟨t.rows.map (fun _ => Row.empty)⟩

/-- The `mock_data` array of screen_logs.c `internal_get_logs`
(source, level, message). -/
def log_mock_data : List (String × String × String) :=
  [("LVGL", "INFO", "Standalone MiniGUI initialized"),
   ("USER", "DEBUG", "Mock log provider active"),
   ("ESP", "INFO", "System starting (simulator mode)"),
   ("USER", "WARN", "External app_bridge not detected"),
   ("LVGL", "DEBUG", "Table layout recalculated for 800px"),
   ("USER", "INFO", "Iterating on standalone UI...")]

/-- screen_logs.c `internal_get_logs`: when `MINIGUI_USE_MOCK_LOGS` is
compiled in (`mockEnabled`), walk `mock_data`, keep an entry when the
filter is NULL, is "ALL", or equals the entry source, stop once
`max_count` entries were added; each kept entry gets the strftime
"%H:%M:%S" time (`timeStr`) and the strncpy-truncated mock strings.
Without the macro the function returns 0 entries. -/
def internal_get_logs (mockEnabled : Bool) (timeStr : String)
    (max_count : Nat) (filter : Option String) : List LogEntry :=
  if mockEnabled then
    ((log_mock_data.filter (fun e =>
        match filter with
        | none => true
        | some f => f = "ALL" || e.1 = f)).take max_count).map
      (fun e =>
        { timestamp := strncpyTrunc 15 timeStr
          source := strncpyTrunc 15 e.1
          level := strncpyTrunc 9 e.2.1
          message := strncpyTrunc 255 e.2.2 })
  else []

/-- The four `lv_table_set_cell_value` calls of one iteration of the fill
loop in screen_logs.c `update_table_with_logs`, then the next iteration
on the rest of the fetched entries. -/
def fillRowsFrom (t : Table) (i : Nat) : List LogEntry → Table
  | [] => t
  | e :: rest =>
      fillRowsFrom
        ((((t.setCell i 0 e.timestamp).setCell i 1 e.source).setCell i 2
            e.level).setCell i 3 e.message)
        (i + 1) rest

/-- The observable outcome of one screen_logs.c `update_table_with_logs`
run: the table afterwards (`none` when `data_table` did not exist), the
`max_count` the external provider was invoked with (if it was), and
whether the internal mock was consulted. -/
structure UpdateResult where
  table : Option Table
  providerCalled : Option Nat
  mockCalled : Bool
deriving Repr

/-- screen_logs.c `update_table_with_logs`: return if no table; clear the
cells, show a one-row "Loading..." message; on `malloc` failure
(`allocOk = false`) show a one-row "Memory error" message in column 3 and
return without fetching; otherwise fetch from the registered provider
(with capacity MINIGUI_MAX_LOGS), else from `internal_get_logs`; set the
row count to the fetched count and fill each row; when the count is 0,
show the single "No logs / for / filter / <filter>" row instead. -/
def update_table_with_logs (logProvider : Option LogProvider)
    (mockEnabled : Bool) (timeStr : String) (allocOk : Bool)
    (table : Option Table) (filter : Option String) : UpdateResult :=
  match table with
  | none => ⟨none, none, false⟩
  | some t =>
      let t1 := ((clear_table_cells t).setRowCnt 1).setCell 0 3 "Loading..."
      if allocOk then
        let fetch :
            List LogEntry × Option Nat × Bool :=
          match logProvider with
          | some p => (p MINIGUI_MAX_LOGS filter, some MINIGUI_MAX_LOGS, false)
          | none =>
              (internal_get_logs mockEnabled timeStr MINIGUI_MAX_LOGS filter,
               none, true)
        let entries := fetch.1
        let count := entries.length
        let t2 := fillRowsFrom (t1.setRowCnt count) 0 entries
        let t3 :=
          if count = 0 then
            ((((t2.setRowCnt 1).setCell 0 0 "No logs").setCell 0 1
                "for").setCell 0 2 "filter").setCell 0 3 (filter.getD "ALL")
          else t2
        ⟨some t3, fetch.2.1, fetch.2.2⟩
      else
        ⟨some ((t1.setRowCnt 1).setCell 0 3 "Memory error"), none, false⟩

/-- The four display strings of an entry as a table row (the fill loop
writes timestamp, source, level, message into columns 0-3). -/
def entryRow (e : LogEntry) : Row := ⟨e.timestamp, e.source, e.level, e.message⟩

/-! ## Settings screen monitor panel (screen_settings.c) -/

/-- 2^32, the modulus of C `uint32_t` arithmetic. -/
def UINT32_MOD : Nat := 4294967296

/-- The numeric values shown by screen_settings.c `monitor_timer_cb`
(the voltage in centivolts, CPU percent, and the two computed
percentages `(used * 100) / total`, each a uint32 product reduced mod
2^32 before the division as in C). -/
structure MonitorReadout where
  voltageCenti : Nat
  cpuPct : Nat
  flashPct : Nat
  ramPct : Nat
deriving DecidableEq, Repr

/-- screen_settings.c `monitor_timer_cb`: return if any label is missing;
otherwise fetch stats through the bridge and compute the displayed
values, including the flash and RAM percentages `(used * 100) / total`. -/
def monitor_timer_cb {A} (s : MiniguiCallbacks A) (tick : Nat)
    (labelsExist : Bool) : Option MonitorReadout :=
  if labelsExist then
    let st := minigui_get_system_stats s tick
    some { voltageCenti := st.voltageCenti
           cpuPct := st.cpu_usage
           flashPct := st.flash_used_kb * 100 % UINT32_MOD / st.flash_total_kb
           ramPct := st.ram_used_kb * 100 % UINT32_MOD / st.ram_total_kb }
  else none

/-! ## Helper lemmas on the table operations -/

lemma getD_append_cons (pre : List Row) (m : Row) (ms : List Row) (d : Row) :
    (pre ++ m :: ms).getD pre.length d = m := by
  induction pre with
  | nil => rfl
  | cons a l ih => exact ih

lemma set_append_cons (pre : List Row) (m v : Row) (ms : List Row) :
    (pre ++ m :: ms).set pre.length v = pre ++ v :: ms := by
  induction pre with
  | nil => rfl
  | cons a l ih => simp [List.set, ih]

lemma getElem_append_cons (pre : List Row) (m : Row) (ms : List Row)
    (h : pre.length < (pre ++ m :: ms).length) :
    (pre ++ m :: ms)[pre.length] = m := by
  induction pre with
  | nil => rfl
  | cons a l ih => exact ih (by simp)

lemma setCell_mid (pre : List Row) (m : Row) (ms : List Row) (c : Nat)
    (v : String) :
    Table.setCell ⟨pre ++ m :: ms⟩ pre.length c v = ⟨pre ++ m.setCol c v :: ms⟩ := by
  have hlt : pre.length < (pre ++ m :: ms).length := by
    simp
  simp only [Table.setCell, if_pos hlt, List.getD_eq_getElem _ _ hlt,
    getElem_append_cons _ _ _ hlt, set_append_cons]

lemma setCol_chain (m : Row) (e : LogEntry) :
    (((m.setCol 0 e.timestamp).setCol 1 e.source).setCol 2 e.level).setCol 3
        e.message = entryRow e := by
  cases m
  rfl

lemma fillRowsFrom_append (es : List LogEntry) :
    ∀ pre mid : List Row, mid.length = es.length →
      fillRowsFrom ⟨pre ++ mid⟩ pre.length es = ⟨pre ++ es.map entryRow⟩ := by
  induction es with
  | nil =>
      intro pre mid h
      have hm : mid = [] := by simpa using h
      subst hm
      rfl
  | cons e rest ih =>
      intro pre mid h
      cases mid with
      | nil => simp at h
      | cons m ms =>
          simp only [List.length_cons, Nat.succ.injEq] at h
          rw [fillRowsFrom, setCell_mid, setCell_mid, setCell_mid, setCell_mid,
            setCol_chain]
          have hlen : (pre ++ [entryRow e]).length = pre.length + 1 := by simp
          have := ih (pre ++ [entryRow e]) ms (by simpa using h)
          rw [hlen] at this
          simpa using this

lemma loading_row_eq (t : Table) :
    ((clear_table_cells t).setRowCnt 1).setCell 0 3 "Loading..." =
      ⟨[⟨"", "", "", "Loading..."⟩]⟩ := by
  rcases t with ⟨rows⟩
  cases rows with
  | nil => rfl
  | cons a l =>
      simp [clear_table_cells, Table.setRowCnt, Table.setCell, Row.setCol,
        Row.empty, Nat.sub_eq_zero_of_le]

/-! ## Claim theorems -/

/-- C1, counterexample. The claim states that each of the seven provider
bridges substitutes a canned mock value when no callback is registered,
with no variation in structure. At the concrete input 128 the brightness
bridge with an empty registry invokes nothing and substitutes nothing
(its effect trace is empty), while the WiFi scan bridge on the same
registry does substitute five mock entries, and the log fallback compiled
without MINIGUI_USE_MOCK_LOGS substitutes zero entries: the seven bridges
do not share the claimed mock-substituting behaviour. -/
theorem c1_counterexample :
    minigui_set_brightness emptyCallbacks 128 = [] ∧
    (minigui_scan_wifi emptyCallbacks (fun _ => ⟨"", 0⟩) 10).2 = 5 ∧
    internal_get_logs false "12:00:00" MINIGUI_MAX_LOGS (some "ALL") = [] :=
  ⟨rfl, rfl, rfl⟩

/-- C1, amended: every one of the seven provider bridges delegates to its
registered callback when present; when absent, the WiFi scan, system
stats and network status bridges substitute canned mock data, the log
bridge consults the internal mock (which yields entries only when
MINIGUI_USE_MOCK_LOGS is compiled in, else zero entries), the time bridge
falls back to the C library clock, and the two setter bridges
(brightness, WiFi save) do nothing at all; the shared structure is only
the check-then-delegate-or-fall-back shape. -/
theorem c1_bridges_fallback {A} (s : MiniguiCallbacks A) (f : Nat → A)
    (tp : Nat → String) (w : WifiCredentials → A) (sp : WifiScanProvider)
    (st : Unit → SystemStats) (np : Unit → NetworkStatus) (lp : LogProvider)
    (b : Nat) (creds : WifiCredentials) (buf : WifiBuf) (mc tick : Nat)
    (sysTime timeStr : String) (mockEnabled : Bool) (t : Table)
    (filter : Option String) :
    minigui_set_brightness { s with brightness_cb := some f } b = [f b] ∧
    minigui_set_brightness { s with brightness_cb := none } b = [] ∧
    update_clock_cb { s with global_time_provider := some tp } true sysTime =
      some (tp 32) ∧
    update_clock_cb { s with global_time_provider := none } true sysTime =
      some sysTime ∧
    minigui_save_wifi_credentials { s with wifi_save_cb := some w } creds =
      [w creds] ∧
    minigui_save_wifi_credentials { s with wifi_save_cb := none } creds = [] ∧
    minigui_scan_wifi { s with wifi_scan_provider := some sp } buf mc =
      sp buf mc ∧
    minigui_scan_wifi { s with wifi_scan_provider := none } buf mc =
      wifi_scan_mock buf mc ∧
    minigui_get_system_stats { s with system_stats_provider := some st } tick =
      st () ∧
    minigui_get_system_stats { s with system_stats_provider := none } tick =
      system_stats_mock tick ∧
    minigui_get_network_status { s with network_status_provider := some np } =
      np () ∧
    minigui_get_network_status { s with network_status_provider := none } =
      network_status_mock ∧
    (update_table_with_logs (some lp) mockEnabled timeStr true (some t)
        filter).providerCalled = some MINIGUI_MAX_LOGS ∧
    (update_table_with_logs (some lp) mockEnabled timeStr true (some t)
        filter).mockCalled = false ∧
    (update_table_with_logs none mockEnabled timeStr true (some t)
        filter).providerCalled = none ∧
    (update_table_with_logs none mockEnabled timeStr true (some t)
        filter).mockCalled = true :=
  ⟨rfl, rfl, rfl, rfl, rfl, rfl, rfl, rfl, rfl, rfl, rfl, rfl, rfl, rfl, rfl,
   rfl⟩

/-- C5: provider registration is last-write-wins and process-global.
Registering f and then g on the brightness slot leaves exactly g stored,
and a subsequent bridge invocation uses only g; likewise for the WiFi
scan slot with providers pf then pg. -/
theorem c5_last_write_wins {A} (s : MiniguiCallbacks A) (f g : Nat → A)
    (pf pg : WifiScanProvider) (b : Nat) (buf : WifiBuf) (mc : Nat) :
    (minigui_register_brightness_cb
        (minigui_register_brightness_cb s (some f)) (some g)).brightness_cb =
      some g ∧
    minigui_set_brightness
        (minigui_register_brightness_cb
          (minigui_register_brightness_cb s (some f)) (some g)) b = [g b] ∧
    (minigui_register_wifi_scan_provider
        (minigui_register_wifi_scan_provider s (some pf))
        (some pg)).wifi_scan_provider = some pg ∧
    minigui_scan_wifi
        (minigui_register_wifi_scan_provider
          (minigui_register_wifi_scan_provider s (some pf)) (some pg)) buf mc =
      pg buf mc :=
  ⟨rfl, rfl, rfl, rfl⟩

/-- C6: with no brightness callback registered, minigui_set_brightness
performs no callback invocation for any brightness value, and with no
WiFi-save callback registered, minigui_save_wifi_credentials performs no
callback invocation for any credentials value (the credentials are not
consumed); in both cases the effect trace is empty, and the registry is
read but never written by a bridge in this embedding. -/
theorem c6_setter_noop {A} (s : MiniguiCallbacks A) (b : Nat)
    (creds : WifiCredentials) :
    minigui_set_brightness { s with brightness_cb := none } b = [] ∧
    minigui_save_wifi_credentials { s with wifi_save_cb := none } creds = [] :=
  ⟨rfl, rfl⟩

/-- C9: whenever no system-stats provider is registered, the stats used by
monitor_timer_cb come from the mock, whose flash and RAM totals are the
constants 4096 and 520, both nonzero, and the two percentage divisions
evaluate to 12 and 24 without any division by zero. -/
theorem c9_monitor_divisors {A} (s : MiniguiCallbacks A) (tick : Nat) :
    (minigui_get_system_stats { s with system_stats_provider := none }
        tick).flash_total_kb = 4096 ∧
    (minigui_get_system_stats { s with system_stats_provider := none }
        tick).ram_total_kb = 520 ∧
    0 < (minigui_get_system_stats { s with system_stats_provider := none }
        tick).flash_total_kb ∧
    0 < (minigui_get_system_stats { s with system_stats_provider := none }
        tick).ram_total_kb ∧
    monitor_timer_cb { s with system_stats_provider := none } tick true =
      some ⟨500 + tick % 100, 15 + tick % 40, 12, 24⟩ := by
  refine ⟨rfl, rfl, ?_, ?_, ?_⟩
  · norm_num [minigui_get_system_stats, system_stats_mock]
  · norm_num [minigui_get_system_stats, system_stats_mock]
  · norm_num [monitor_timer_cb, minigui_get_system_stats, system_stats_mock,
      UINT32_MOD]

/-- C2: for each of the three valid screen ids, minigui_switch_screen on an
existing content area empties the area, installs exactly the children
built by the creator mapped to that id, sets the title to "Home",
"System Logs" or "Settings" accordingly, and reports that creator (and
only it) as invoked; for every id at or beyond MINIGUI_SCREEN_COUNT, or
whenever the content area does not yet exist, the state is returned
unchanged and no creator runs. -/
theorem c2_switch_screen {W} (creators : Nat → List W) (ch : List W)
    (ttl : String) :
    minigui_switch_screen creators ⟨some ch, ttl⟩ 0 =
      (⟨some (creators 0), "Home"⟩, some 0) ∧
    minigui_switch_screen creators ⟨some ch, ttl⟩ 1 =
      (⟨some (creators 1), "System Logs"⟩, some 1) ∧
    minigui_switch_screen creators ⟨some ch, ttl⟩ 2 =
      (⟨some (creators 2), "Settings"⟩, some 2) ∧
    (∀ (k : Nat) (s : ShellState W),
      minigui_switch_screen creators s (MINIGUI_SCREEN_COUNT + k) = (s, none)) ∧
    (∀ (id : Nat) (t2 : String),
      minigui_switch_screen creators ⟨none, t2⟩ id = (⟨none, t2⟩, none)) := by
  refine ⟨rfl, rfl, rfl, ?_, ?_⟩
  · intro k s
    simp [minigui_switch_screen, MINIGUI_SCREEN_COUNT]
  · intro id t2
    unfold minigui_switch_screen
    split
    · rfl
    · rfl

/-- C7: minigui_menu_init builds exactly three drawer buttons carrying the
fixed screen ids 0 (Home), 1 (Logs) and 2 (Settings) as user data (the
source never rewrites them afterwards); nav_btn_cb on any user data is
exactly a minigui_switch_screen call with that id followed by a
minigui_menu_toggle; and clicking any of the three buttons while the
drawer is open invokes the creator of its fixed target screen and closes
the drawer (blocker hidden, drawer animated to x = -250). -/
theorem c7_nav_buttons {W} (creators : Nat → List W) (ch : List W)
    (ttl : String) (m : MenuState) :
    minigui_menu_init_buttons =
      [⟨"Home", 0⟩, ⟨"Logs", 1⟩, ⟨"Settings", 2⟩] ∧
    (∀ d, nav_btn_cb creators ⟨some ch, ttl⟩ m d =
      (minigui_switch_screen creators ⟨some ch, ttl⟩ d,
       minigui_menu_toggle m)) ∧
    (nav_btn_cb creators ⟨some ch, ttl⟩
        { m with menuExists := true, blockerHidden := false }
        ((minigui_menu_init_buttons.getD 0 default).userData)).1.2 = some 0 ∧
    (nav_btn_cb creators ⟨some ch, ttl⟩
        { m with menuExists := true, blockerHidden := false }
        ((minigui_menu_init_buttons.getD 1 default).userData)).1.2 = some 1 ∧
    (nav_btn_cb creators ⟨some ch, ttl⟩
        { m with menuExists := true, blockerHidden := false }
        ((minigui_menu_init_buttons.getD 2 default).userData)).1.2 = some 2 ∧
    (∀ d, (nav_btn_cb creators ⟨some ch, ttl⟩
        { m with menuExists := true, blockerHidden := false } d).2 =
      { m with menuExists := true, blockerHidden := true,
               lastAnim := some (0, -250) }) :=
  ⟨rfl, fun _ => rfl, rfl, rfl, rfl, fun _ => rfl⟩

/-- C10: minigui_menu_toggle flips the blocker visibility: with the menu
built and the blocker hidden it unhides the blocker and animates the
drawer from -250 to 0; with the blocker visible it hides the blocker and
animates the drawer from 0 to -250; two successive toggles restore the
original blocker-hidden flag for every starting state; and after any
toggle of a built menu the blocker is visible exactly when the animation
started is the one targeting the on-screen position x = 0. -/
theorem c10_toggle_involution (m : MenuState) :
    minigui_menu_toggle { m with menuExists := true, blockerHidden := true } =
      { m with menuExists := true, blockerHidden := false,
               lastAnim := some (-250, 0) } ∧
    minigui_menu_toggle { m with menuExists := true, blockerHidden := false } =
      { m with menuExists := true, blockerHidden := true,
               lastAnim := some (0, -250) } ∧
    (minigui_menu_toggle (minigui_menu_toggle m)).blockerHidden =
      m.blockerHidden ∧
    ((minigui_menu_toggle { m with menuExists := true }).blockerHidden = false ↔
      (minigui_menu_toggle { m with menuExists := true }).lastAnim =
        some (-250, 0)) := by
  obtain ⟨me, bh, la⟩ := m
  refine ⟨rfl, rfl, ?_, ?_⟩
  · cases me <;> cases bh <;> rfl
  · cases bh <;> simp [minigui_menu_toggle]

/-- C4: with no WiFi scan provider registered, minigui_scan_wifi returns
min(5, max_count) and writes exactly the first min(5, max_count) mock
entries — SSIDs "Home_WiFi_2.4G", "Office_Secure", "CoffeeShop_Free",
"Starlink_99", "Guest_Lounge" with rssi -50 - 10*i for entry i — leaving
every buffer slot at or beyond that count untouched; with a registered
provider it returns exactly the provider result on the same buffer and
capacity. -/
theorem c4_scan_wifi {A} (s : MiniguiCallbacks A) (buf : WifiBuf) (mc : Nat)
    (p : WifiScanProvider) :
    (minigui_scan_wifi { s with wifi_scan_provider := none } buf mc).2 =
      min 5 mc ∧
    (∀ i, (minigui_scan_wifi { s with wifi_scan_provider := none } buf mc).1 i =
      if i < min 5 mc then
        { ssid := mock_ssids.getD i "", rssi := -50 - 10 * (i : Int) }
      else buf i) ∧
    minigui_scan_wifi { s with wifi_scan_provider := some p } buf mc =
      p buf mc := by
  have hcnt : (if 5 < mc then 5 else mc) = min 5 mc := by
    rw [Nat.min_def]
    split <;> split <;> omega
  refine ⟨?_, ?_, rfl⟩
  · simp only [minigui_scan_wifi, wifi_scan_mock, hcnt]
  · intro i
    simp only [minigui_scan_wifi, wifi_scan_mock, hcnt]
    by_cases hi : i < min 5 mc
    · have h5 : i < 5 := lt_of_lt_of_le hi (Nat.min_le_left 5 mc)
      simp only [if_pos hi]
      interval_cases i <;> rfl
    · simp only [if_neg hi]

/-- C3: on heap allocation failure during a log table refresh, the table is
left with exactly one row whose sole nonempty cell is column 3 holding
the literal "Memory error", and neither the registered provider nor the
internal mock is consulted, for every provider slot, mock setting and
filter. -/
theorem c3_alloc_failure (lp : Option LogProvider) (mockEnabled : Bool)
    (timeStr : String) (t : Table) (filter : Option String) :
    update_table_with_logs lp mockEnabled timeStr false (some t) filter =
      ⟨some ⟨[⟨"", "", "", "Memory error"⟩]⟩, none, false⟩ := by
  simp only [update_table_with_logs]
  rw [loading_row_eq]
  rfl

lemma table_after_fill (t : Table) (es : List LogEntry) :
    fillRowsFrom
      ((((clear_table_cells t).setRowCnt 1).setCell 0 3
          "Loading...").setRowCnt es.length) 0 es = ⟨es.map entryRow⟩ := by
  rw [loading_row_eq]
  cases es with
  | nil => rfl
  | cons e rest =>
      have hrc :
          Table.setRowCnt ⟨[⟨"", "", "", "Loading..."⟩]⟩ (e :: rest).length =
            ⟨⟨"", "", "", "Loading..."⟩ :: List.replicate rest.length Row.empty⟩ := by
        simp [Table.setRowCnt]
      rw [hrc]
      have h := fillRowsFrom_append (e :: rest) []
        (⟨"", "", "", "Loading..."⟩ :: List.replicate rest.length Row.empty)
        (by simp)
      simpa using h

/-- C8: a log table refresh on an existing table with an external provider
registered and a successful allocation asks the provider for at most
MINIGUI_MAX_LOGS (50) entries (the capacity passed is exactly 50) and
never consults the mock; assuming the provider returns count ≤ 50
entries, the table afterwards holds exactly count rows, row i being
entry i's timestamp, source, level and message in columns 0-3, and when
count is 0 it instead holds the single row "No logs" / "for" / "filter" /
the filter string. -/
theorem c8_log_refresh (p : LogProvider) (mockEnabled : Bool)
    (timeStr : String) (t : Table) (filter : Option String)
    (_hcount : (p MINIGUI_MAX_LOGS filter).length ≤ MINIGUI_MAX_LOGS) :
    (update_table_with_logs (some p) mockEnabled timeStr true (some t)
        filter).providerCalled = some MINIGUI_MAX_LOGS ∧
    (update_table_with_logs (some p) mockEnabled timeStr true (some t)
        filter).mockCalled = false ∧
    (p MINIGUI_MAX_LOGS filter ≠ [] →
      (update_table_with_logs (some p) mockEnabled timeStr true (some t)
          filter).table = some ⟨(p MINIGUI_MAX_LOGS filter).map entryRow⟩) ∧
    (p MINIGUI_MAX_LOGS filter = [] →
      (update_table_with_logs (some p) mockEnabled timeStr true (some t)
          filter).table =
        some ⟨[⟨"No logs", "for", "filter", filter.getD "ALL"⟩]⟩) := by
  have hfill := table_after_fill t (p MINIGUI_MAX_LOGS filter)
  refine ⟨rfl, rfl, ?_, ?_⟩
  · intro hne
    have hlen : ¬ (p MINIGUI_MAX_LOGS filter).length = 0 := by
      simpa [List.length_eq_zero] using hne
    simp only [update_table_with_logs, if_pos rfl, hfill, if_neg hlen]
    simp
  · intro heq
    simp only [update_table_with_logs, if_pos rfl, heq]
    rw [loading_row_eq]
    rfl

/-- C8 witness: a provider returning one entry satisfies the count bound,
and the refreshed table holds exactly that entry's row. -/
theorem c8_log_refresh_witness :
    (((fun _ _ => [⟨"12:00:00", "ESP", "INFO", "boot"⟩]) : LogProvider)
        MINIGUI_MAX_LOGS none).length ≤ MINIGUI_MAX_LOGS ∧
    (update_table_with_logs
        (some ((fun _ _ => [⟨"12:00:00", "ESP", "INFO", "boot"⟩]) : LogProvider))
        false "tm" true (some ⟨[]⟩) none).table =
      some ⟨[⟨"12:00:00", "ESP", "INFO", "boot"⟩]⟩ := by
  constructor
  · decide
  · have h := (c8_log_refresh
      ((fun _ _ => [⟨"12:00:00", "ESP", "INFO", "boot"⟩]) : LogProvider)
      false "tm" ⟨[]⟩ none (by decide)).2.2.1 (by decide)
    simpa [entryRow] using h
